import Mathlib

/-!
Formal model of the beatfox 2-D acoustic wave simulator core
(`src/experiments/src/WaveSimulation.cpp`, `AudioSource.h`, `AudioSample.h`,
`DampingPreset.cpp`).

Modelling conventions.

Floats are modelled by exact rationals: every float literal of the source is
taken at its decimal value (0.6 becomes 6/10, 0.0086 becomes 86/10000, ...).
The two transcendental library calls of the code are abstracted by function
parameters:

- `expQ : ℚ → ℚ` stands for `std::exp`; every fact proved below either holds
  for an arbitrary such function or instantiates it at a function that agrees
  with the real exponential at the arguments actually used (in particular
  `exp` is everywhere positive, so a constant positive function is an
  admissible instance for refutations that only need positivity);
- `dbToAmp : ℚ → ℚ` stands for `std::pow 10 (db / 20)`; concrete refutations
  use it only at `db = 0`, where the real function returns exactly 1.

The float `sqrt` of `addObstacle` / `removeObstacle` appears only inside the
comparison `sqrt (dx*dx + dy*dy) <= radius` against an integer radius, which
is equivalent to the exact integer comparison `dx*dx + dy*dy <= radius*radius`;
the
model uses the latter.  In `addPressureSource` the code squares the square
root again (`r * r`), which the model replaces by the exact squared distance.

Pressure fields are modelled as total functions `ℤ → ℤ → ℚ` indexed by grid
coordinates; the row-major array of the code is recovered through
`index (x, y) = y * width + x`.  All array accesses performed by the code are
inside the addressed row for grids of width and height at least 2, so the
coordinate view is exact there.  The Metal GPU backend is unavailable in the
modelled configuration (`useGPU = false`), so `update` and `updateStep` take
the CPU paths, exactly as written in the source.
-/

set_option maxHeartbeats 1600000

namespace Beatfox

/-- A pressure field: acoustic pressure (Pa) at each grid coordinate. -/
abbrev Grid : Type := ℤ → ℤ → ℚ

/-- The obstacle mask: `true` = rigid cell, `false` = fluid cell. -/
abbrev ObstacleMask : Type := ℤ → ℤ → Bool

/-- In-grid coordinate test, `0 ≤ x < w ∧ 0 ≤ y < h`. -/
def inGrid (w h x y : ℤ) : Prop :=
  0 ≤ x ∧ x < w ∧ 0 ≤ y ∧ y < h

instance (w h x y : ℤ) : Decidable (inGrid w h x y) := by
  unfold inGrid; infer_instance

/-- `DampingPreset::Type` from `DampingPreset.h`. -/
inductive PresetType where
  | REALISTIC
  | VISUALIZATION
  | ANECHOIC
deriving DecidableEq

/-- `DampingPreset` value object from `DampingPreset.h` / `DampingPreset.cpp`. -/
structure DampingPreset where
  type : PresetType
  damping : ℚ
  wallReflection : ℚ
  name : String
  description : String

/-- `DampingPreset::fromType` from `DampingPreset.cpp`. -/
def DampingPreset.fromType : PresetType → DampingPreset
  | .REALISTIC =>
      ⟨.REALISTIC, 997/1000, 85/100, "Realistic",
        "Real-world room acoustics with air absorption and wall reflections"⟩
  | .VISUALIZATION =>
      ⟨.VISUALIZATION, 9998/10000, 98/100, "Visualization",
        "Minimal damping for clear demonstration of interference patterns"⟩
  | .ANECHOIC =>
      ⟨.ANECHOIC, 998/1000, 0, "Anechoic",
        "Anechoic chamber: no wall reflections, higher air absorption"⟩

/-- `AudioSample` from `AudioSample.h`: immutable mono PCM buffer. -/
structure AudioSample where
  data : List ℚ
  sampleRate : ℤ
  name : String

/-- `AudioSample::getLength`. -/
def AudioSample.getLength (a : AudioSample) : ℕ := a.data.length

/-- `AudioSample::getSample`: point lookup, 0 past the end. -/
def AudioSample.getSample (a : AudioSample) (i : ℕ) : ℚ :=
  if a.data.length ≤ i then 0 else a.data.getD i 0

/-- `AudioSource` entity from `AudioSource.h`. -/
structure AudioSource where
  sample : AudioSample
  x : ℤ
  y : ℤ
  volumeDb : ℚ
  loop : Bool
  playing : Bool
  playbackPosition : ℕ

/-- The `AudioSource` constructor: head at 0, not playing. -/
def AudioSource.make (smp : AudioSample) (x y : ℤ) (volumeDb : ℚ) (loop : Bool) :
    AudioSource :=
  ⟨smp, x, y, volumeDb, loop, false, 0⟩

/-- `AudioSource::play`. -/
def AudioSource.play (s : AudioSource) : AudioSource :=
  { s with playing := true, playbackPosition := 0 }

/-- `AudioSource::stop`. -/
def AudioSource.stop (s : AudioSource) : AudioSource :=
  { s with playing := false, playbackPosition := 0 }

/-- `AudioSource::pause`. -/
def AudioSource.pause (s : AudioSource) : AudioSource :=
  { s with playing := false }

/-- `AudioSource::resume`. -/
def AudioSource.resume (s : AudioSource) : AudioSource :=
  { s with playing := true }

/-- `std::round` (half away from zero) followed by the int cast. -/
def cppRound (q : ℚ) : ℤ :=
  if 0 ≤ q then ⌊q + 1/2⌋ else ⌈q - 1/2⌉

/-- The read loop of `AudioSource::getCurrentSample`, iterated at most
`fuel = samplesPerStep` times starting at play head `pos`.  Returns
`(sum, samplesRead, playbackPosition, playing)` exactly as the loop leaves
those variables (the source is playing on entry). -/
def srcRead (smp : AudioSample) (lp : Bool) : ℕ → ℕ → ℚ × ℕ × ℕ × Bool
  | 0, pos => (0, 0, pos, true)
  | fuel + 1, pos =>
      if pos < smp.getLength then
        let v := smp.getSample pos
        if smp.getLength ≤ pos + 1 then
          if lp then
            let r := srcRead smp lp fuel 0
            (v + r.1, r.2.1 + 1, r.2.2.1, r.2.2.2)
          else (v, 1, pos + 1, false)
        else
          let r := srcRead smp lp fuel (pos + 1)
          (v + r.1, r.2.1 + 1, r.2.2.1, r.2.2.2)
      else (0, 0, pos, true)

/-- `AudioSource::getCurrentSample` from `AudioSource.h`: returns the pressure
value (Pa) to inject and the mutated source.  `dbToAmp` abstracts
`getAmplitude`, i.e. `10 ^ (volumeDb / 20)`. -/
def AudioSource.getCurrentSample (src : AudioSource) (dbToAmp : ℚ → ℚ) (dt : ℚ) :
    ℚ × AudioSource :=
  if src.playing = false then (0, src)
  else
    let samplesPerStepFloat : ℚ := (src.sample.sampleRate : ℚ) * dt
    let samplesPerStep : ℤ := max 1 (cppRound samplesPerStepFloat)
    let r := srcRead src.sample src.loop samplesPerStep.toNat src.playbackPosition
    let averageSample : ℚ := if 0 < r.2.1 then r.1 / (r.2.1 : ℚ) else 0
    let amplitude : ℚ := dbToAmp src.volumeDb
    ((averageSample * amplitude) * 20,
      { src with playbackPosition := r.2.2.1, playing := r.2.2.2 })

/-- `ActiveRegion` bounding box from `WaveSimulation.h`. -/
structure ActiveRegion where
  minX : ℤ
  maxX : ℤ
  minY : ℤ
  maxY : ℤ
  hasActivity : Bool

/-- State of `WaveSimulation` (CPU configuration, `useGPU = false`). -/
structure WaveSimulation where
  width : ℤ
  height : ℤ
  soundSpeed : ℚ
  damping : ℚ
  wallReflection : ℚ
  dx : ℚ
  currentPreset : DampingPreset
  listenerX : ℤ
  listenerY : ℤ
  listenerEnabled : Bool
  pressure : Grid
  pressurePrev : Grid
  pressureNext : Grid
  obstacles : ObstacleMask
  audioSources : List AudioSource
  listenerSampleBuffer : List ℚ
  activeRegion : ActiveRegion

namespace WaveSimulation

/-- The `WaveSimulation(width, height)` constructor. -/
def init (w h : ℤ) : WaveSimulation where
  width := w
  height := h
  soundSpeed := 343
  damping := 997/1000
  wallReflection := 85/100
  dx := 86/10000
  currentPreset := DampingPreset.fromType .REALISTIC
  listenerX := w / 2
  listenerY := h / 2
  listenerEnabled := false
  pressure := fun _ _ => 0
  pressurePrev := fun _ _ => 0
  pressureNext := fun _ _ => 0
  obstacles := fun _ _ => false
  audioSources := []
  listenerSampleBuffer := []
  activeRegion := ⟨0, 0, 0, 0, false⟩

/-- `WaveSimulation::getListenerPressure`. -/
def getListenerPressure (s : WaveSimulation) : ℚ :=
  if s.listenerEnabled = false then 0
  else if s.listenerX < 0 ∨ s.width ≤ s.listenerX ∨ s.listenerY < 0 ∨ s.height ≤ s.listenerY
  then 0
  else s.pressure s.listenerX s.listenerY

/-- `WaveSimulation::expandActiveRegion`. -/
def expandActiveRegion (s : WaveSimulation) (centerX centerY radius : ℤ) :
    WaveSimulation :=
  if s.activeRegion.hasActivity = false then
    { s with activeRegion :=
        { minX := max 0 (centerX - radius)
          maxX := min (s.width - 1) (centerX + radius)
          minY := max 0 (centerY - radius)
          maxY := min (s.height - 1) (centerY + radius)
          hasActivity := true } }
  else
    { s with activeRegion :=
        { minX := max 0 (min s.activeRegion.minX (centerX - radius))
          maxX := min (s.width - 1) (max s.activeRegion.maxX (centerX + radius))
          minY := max 0 (min s.activeRegion.minY (centerY - radius))
          maxY := min (s.height - 1) (max s.activeRegion.maxY (centerY + radius))
          hasActivity := true } }

/-- `WaveSimulation::growActiveRegionForFrame`. -/
def growActiveRegionForFrame (s : WaveSimulation) (dt : ℚ) : WaveSimulation :=
  if s.activeRegion.hasActivity = false then s
  else
    let propagationDistance : ℚ := s.soundSpeed * dt / s.dx
    let expansion : ℤ := ⌈propagationDistance * 2⌉
    { s with activeRegion :=
        { minX := max 0 (s.activeRegion.minX - expansion)
          maxX := min (s.width - 1) (s.activeRegion.maxX + expansion)
          minY := max 0 (s.activeRegion.minY - expansion)
          maxY := min (s.height - 1) (s.activeRegion.maxY + expansion)
          hasActivity := true } }

/-- The audio-source injection loop at the top of `WaveSimulation::updateStep`:
each playing source is sampled (mutating it) and its value is added to the
current pressure field at its cell when that cell is interior and free. -/
def injectSources (dbToAmp : ℚ → ℚ) (w h : ℤ) (obst : ObstacleMask) (dt : ℚ) :
    List AudioSource → Grid → Grid × List AudioSource
  | [], p => (p, [])
  | src :: rest, p =>
      if src.playing = true then
        let r := src.getCurrentSample dbToAmp dt
        let p' :=
          if 0 < src.x ∧ src.x < w - 1 ∧ 0 < src.y ∧ src.y < h - 1 ∧
              obst src.x src.y = false then
            fun a b => if a = src.x ∧ b = src.y then p a b + r.1 else p a b
          else p
        let rest' := injectSources dbToAmp w h obst dt rest p'
        (rest'.1, r.2 :: rest'.2)
      else
        let rest' := injectSources dbToAmp w h obst dt rest p
        (rest'.1, src :: rest'.2)

/-- The interior five-point stencil of `WaveSimulation::updateStep`: leapfrog
with combined damping on `1 ≤ x ≤ w-2`, `1 ≤ y ≤ h-2`; obstacle cells get 0;
all other cells keep the stale contents of the `pressureNext` buffer. -/
def stencilNext (damping c2dt2dx2 : ℚ) (w h : ℤ) (obst : ObstacleMask)
    (p pPrev pNextOld : Grid) : Grid := fun x y =>
  if 1 ≤ x ∧ x ≤ w - 2 ∧ 1 ≤ y ∧ y ≤ h - 2 then
    if obst x y = true then 0
    else
      let lap := p (x+1) y + p (x-1) y + p x (y+1) + p x (y-1) - 4 * p x y
      (2 * damping) * p x y - damping * pPrev x y + damping * c2dt2dx2 * lap
  else pNextOld x y

/-- The absorbing (Engquist-Majda) boundary pass of `updateStep`, taken when
`wallReflection < 0.1`: one-way update on each edge from the current field,
corners pinned to 0. -/
def boundaryAbsorbing (absorption : ℚ) (w h : ℤ) (p nx : Grid) : Grid := fun x y =>
  if (x = 0 ∨ x = w - 1) ∧ (y = 0 ∨ y = h - 1) then 0
  else if y = 0 ∧ 1 ≤ x ∧ x ≤ w - 2 then
    p x 0 - absorption * (p x 0 - p x 1)
  else if y = h - 1 ∧ 1 ≤ x ∧ x ≤ w - 2 then
    p x (h-1) - absorption * (p x (h-1) - p x (h-2))
  else if x = 0 ∧ 1 ≤ y ∧ y ≤ h - 2 then
    p 0 y - absorption * (p 0 y - p 1 y)
  else if x = w - 1 ∧ 1 ≤ y ∧ y ≤ h - 2 then
    p (w-1) y - absorption * (p (w-1) y - p (w-2) y)
  else nx x y

/-- Top-row write of the reflective boundary pass:
`pressureNext[x] = pressureNext[width + x] * wallReflection`. -/
def reflTop (wr : ℚ) (nx : Grid) : Grid := fun x y =>
  if y = 0 then nx x 1 * wr else nx x y

/-- Bottom-row write of the reflective boundary pass. -/
def reflBottom (wr : ℚ) (h : ℤ) (nx : Grid) : Grid := fun x y =>
  if y = h - 1 then nx x (h-2) * wr else nx x y

/-- Left-column write of the reflective boundary pass. -/
def reflLeft (wr : ℚ) (nx : Grid) : Grid := fun x y =>
  if x = 0 then nx 1 y * wr else nx x y

/-- Right-column write of the reflective boundary pass. -/
def reflRight (wr : ℚ) (w : ℤ) (nx : Grid) : Grid := fun x y =>
  if x = w - 1 then nx (w-2) y * wr else nx x y

/-- The reflective boundary pass of `updateStep` (Neumann with attenuation),
as four sequential in-place passes over the `pressureNext` buffer: top row,
bottom row, left column, right column, in the order the code writes them. -/
def boundaryReflective (wr : ℚ) (w h : ℤ) (nx : Grid) : Grid :=
  reflRight wr w (reflLeft wr (reflBottom wr h (reflTop wr nx)))

/-- The current pressure field after the audio-source injection loop at the
top of `updateStep`. -/
def injectedPressure (dbToAmp : ℚ → ℚ) (dt : ℚ) (s : WaveSimulation) : Grid :=
  (injectSources dbToAmp s.width s.height s.obstacles dt s.audioSources s.pressure).1

/-- The `pressureNext` buffer after the interior stencil of `updateStep`,
with `c2dt2dx2 = (c * c * dt * dt) / (dx * dx)` as computed by the code. -/
def stepStencil (dbToAmp : ℚ → ℚ) (dt : ℚ) (s : WaveSimulation) : Grid :=
  stencilNext s.damping ((s.soundSpeed * s.soundSpeed * dt * dt) / (s.dx * s.dx))
    s.width s.height s.obstacles (injectedPressure dbToAmp dt s)
    s.pressurePrev s.pressureNext

/-- The `pressureNext` buffer after the boundary-condition pass of
`updateStep`: absorbing if `wallReflection < 0.1`, else reflective. -/
def stepPressure (dbToAmp : ℚ → ℚ) (dt : ℚ) (s : WaveSimulation) : Grid :=
  if s.wallReflection < 1/10 then
    boundaryAbsorbing (min 1 (s.soundSpeed * dt / s.dx)) s.width s.height
      (injectedPressure dbToAmp dt s) (stepStencil dbToAmp dt s)
  else
    boundaryReflective s.wallReflection s.width s.height (stepStencil dbToAmp dt s)

/-- `WaveSimulation::updateStep` without the final listener capture:
source injection, stencil, boundary pass, buffer rotation (the code computes
the injection once; repeating the pure call here yields the same value). -/
def updateStepCore (dbToAmp : ℚ → ℚ) (dt : ℚ) (s : WaveSimulation) :
    WaveSimulation :=
  { s with
    pressure := stepPressure dbToAmp dt s
    pressurePrev := injectedPressure dbToAmp dt s
    pressureNext := s.pressurePrev
    audioSources :=
      (injectSources dbToAmp s.width s.height s.obstacles dt s.audioSources s.pressure).2 }

/-- `WaveSimulation::updateStep`: one sub-step followed by the listener
capture at sub-step rate. -/
def updateStep (dbToAmp : ℚ → ℚ) (dt : ℚ) (s : WaveSimulation) : WaveSimulation :=
  let s' := updateStepCore dbToAmp dt s
  if s.listenerEnabled = true then
    { s' with listenerSampleBuffer := s'.listenerSampleBuffer ++ [s'.getListenerPressure] }
  else s'

/-- The maximum stable time step `CFL_SAFETY * dx / soundSpeed` computed in
`WaveSimulation::update`, with `CFL_SAFETY = 0.6`. -/
def dtMax (s : WaveSimulation) : ℚ := 6/10 * s.dx / s.soundSpeed

/-- The sub-step count `numSteps = ceil(dt_frame / dt_max)` of
`WaveSimulation::update`. -/
def numSubSteps (s : WaveSimulation) (dtFrame : ℚ) : ℤ := ⌈dtFrame / s.dtMax⌉

/-- The sub-step duration `dt = dt_frame / numSteps` of `WaveSimulation::update`. -/
def subStepDt (s : WaveSimulation) (dtFrame : ℚ) : ℚ :=
  dtFrame / (s.numSubSteps dtFrame : ℚ)

/-- The frame preamble of `WaveSimulation::update`: clear the listener sample
buffer, then grow the active region for the frame. -/
def updatePre (s : WaveSimulation) (dtFrame : ℚ) : WaveSimulation :=
  growActiveRegionForFrame { s with listenerSampleBuffer := [] } dtFrame

/-- `WaveSimulation::update` (CPU path): preamble, then `numSteps` sub-steps
of duration `dt = dt_frame / numSteps`. -/
def update (s : WaveSimulation) (dbToAmp : ℚ → ℚ) (dtFrame : ℚ) : WaveSimulation :=
  (updateStep dbToAmp (s.subStepDt dtFrame))^[(s.numSubSteps dtFrame).toNat]
    (s.updatePre dtFrame)

/-- `WaveSimulation::addPressureSource` from `WaveSimulation.cpp`: bounds
check, active-region expansion, amplitude and radius validation, then the
Gaussian impulse over the full `(2r+1) × (2r+1)` offset square.  `expQ`
abstracts `std::exp`. -/
def addPressureSource (s : WaveSimulation) (expQ : ℚ → ℚ) (x y : ℤ)
    (pressureAmplitude : ℚ) (radius : ℤ) : WaveSimulation :=
  if x < 0 ∨ s.width ≤ x ∨ y < 0 ∨ s.height ≤ y then s
  else
    let s1 := s.expandActiveRegion x y (radius * 2)
    if pressureAmplitude ≤ 0 ∨ 1000 < pressureAmplitude then s1
    else if radius < 1 ∨ 50 < radius then s1
    else
      let sigma : ℚ := (radius : ℚ) * (5/4)
      { s1 with pressure := fun px py =>
          if -radius ≤ px - x ∧ px - x ≤ radius ∧ -radius ≤ py - y ∧ py - y ≤ radius ∧
              0 < px ∧ px < s.width - 1 ∧ 0 < py ∧ py < s.height - 1 ∧
              s.obstacles px py = false then
            s1.pressure px py +
              pressureAmplitude *
                expQ (-((((px - x) * (px - x) + (py - y) * (py - y) : ℤ)) : ℚ) /
                  (2 * sigma * sigma))
          else s1.pressure px py }

/-- `WaveSimulation::clear`: zero all three fields, clear the active region. -/
def clear (s : WaveSimulation) : WaveSimulation :=
  { s with pressure := fun _ _ => 0, pressurePrev := fun _ _ => 0,
           pressureNext := fun _ _ => 0,
           activeRegion := { s.activeRegion with hasActivity := false } }

/-- The cell set touched by `addObstacle` / `removeObstacle`: interior cells
of the disk of the given radius around `(x, y)` (the float comparison
`sqrt (dx² + dy²) ≤ radius` is the exact integer disk test, and the loop
ranges are empty for a negative radius). -/
def diskHit (s : WaveSimulation) (x y radius px py : ℤ) : Prop :=
  0 < px ∧ px < s.width - 1 ∧ 0 < py ∧ py < s.height - 1 ∧
  0 ≤ radius ∧ (px - x) * (px - x) + (py - y) * (py - y) ≤ radius * radius

instance (s : WaveSimulation) (x y radius px py : ℤ) :
    Decidable (s.diskHit x y radius px py) := by
  unfold diskHit; infer_instance

/-- `WaveSimulation::addObstacle`: mark the interior disk as rigid and zero
all three pressure fields there. -/
def addObstacle (s : WaveSimulation) (x y radius : ℤ) : WaveSimulation :=
  { s with
    obstacles := fun px py => if s.diskHit x y radius px py then true else s.obstacles px py
    pressure := fun px py => if s.diskHit x y radius px py then 0 else s.pressure px py
    pressurePrev := fun px py => if s.diskHit x y radius px py then 0 else s.pressurePrev px py
    pressureNext := fun px py => if s.diskHit x y radius px py then 0 else s.pressureNext px py }

/-- `WaveSimulation::removeObstacle`: clear the mask on the interior disk. -/
def removeObstacle (s : WaveSimulation) (x y radius : ℤ) : WaveSimulation :=
  { s with
    obstacles := fun px py => if s.diskHit x y radius px py then false else s.obstacles px py }

/-- `WaveSimulation::clearObstacles`. -/
def clearObstacles (s : WaveSimulation) : WaveSimulation :=
  { s with obstacles := fun _ _ => false }

/-- The mask described by a rasterized byte array of length `w * h`,
row-major (`index = y * w + x`). -/
def maskOfBytes (w : ℤ) (bytes : List Bool) : ObstacleMask := fun x y =>
  bytes.getD (y * w + x).toNat false

/-- `WaveSimulation::loadObstaclesFromSVG` after the external rasterizer has
produced its result: the rasterizer call itself (`SVGLoader::loadSVG`, file
I/O) is abstracted into the inputs `ok` (its success flag) and `bytes` (the
byte array it returned).  The method first clears the existing obstacles and
the pressure field, then validates, then installs the mask and re-zeroes the
pressure at every obstacle cell.  Returns the success flag and the new state. -/
def loadObstaclesFromSVG (s : WaveSimulation) (ok : Bool) (bytes : List Bool) :
    Bool × WaveSimulation :=
  let s1 := clear (clearObstacles s)
  if ok = false then (false, s1)
  else if (bytes.length : ℤ) ≠ s.width * s.height then (false, s1)
  else
    let mask := maskOfBytes s.width bytes
    (true,
      { s1 with
        obstacles := mask
        pressure := fun x y =>
          if inGrid s.width s.height x y ∧ mask x y = true then 0 else s1.pressure x y
        pressurePrev := fun x y =>
          if inGrid s.width s.height x y ∧ mask x y = true then 0 else s1.pressurePrev x y
        pressureNext := fun x y =>
          if inGrid s.width s.height x y ∧ mask x y = true then 0 else s1.pressureNext x y })

/-- `WaveSimulation::setListenerPosition` (clamped to the grid). -/
def setListenerPosition (s : WaveSimulation) (x y : ℤ) : WaveSimulation :=
  { s with listenerX := max 0 (min x (s.width - 1)),
           listenerY := max 0 (min y (s.height - 1)) }

/-- `WaveSimulation::setListenerEnabled`. -/
def setListenerEnabled (s : WaveSimulation) (b : Bool) : WaveSimulation :=
  { s with listenerEnabled := b }

/-- `WaveSimulation::applyDampingPreset`. -/
def applyDampingPreset (s : WaveSimulation) (preset : DampingPreset) : WaveSimulation :=
  { s with damping := preset.damping, wallReflection := preset.wallReflection,
           currentPreset := preset }

/-- `WaveSimulation::addAudioSource`: expand the active region around the
source (radius 10) and append it to the list. -/
def addAudioSource (s : WaveSimulation) (src : AudioSource) : WaveSimulation :=
  let s1 := s.expandActiveRegion src.x src.y 10
  { s1 with audioSources := s1.audioSources ++ [src] }

/-- `WaveSimulation::removeAudioSource`. -/
def removeAudioSource (s : WaveSimulation) (id : ℕ) : WaveSimulation :=
  if id < s.audioSources.length then
    { s with audioSources := s.audioSources.eraseIdx id }
  else s

/-- `WaveSimulation::clearAudioSources`. -/
def clearAudioSources (s : WaveSimulation) : WaveSimulation :=
  { s with audioSources := [] }

/-- In-place modification of the `id`-th element of a list. -/
def listModify (f : AudioSource → AudioSource) : ℕ → List AudioSource → List AudioSource
  | _, [] => []
  | 0, a :: rest => f a :: rest
  | n + 1, a :: rest => a :: listModify f n rest

/-- A mutation of one owned source through `getAudioSource(id)` followed by a
public `AudioSource` method (`play`, `stop`, `pause`, `resume`,
`setPosition`, `setVolume`, `setLoop`). -/
def modifyAudioSource (s : WaveSimulation) (id : ℕ) (f : AudioSource → AudioSource) :
    WaveSimulation :=
  { s with audioSources := listModify f id s.audioSources }

/-- `WaveSimulation::setWaveSpeed`. -/
def setWaveSpeed (s : WaveSimulation) (v : ℚ) : WaveSimulation :=
  { s with soundSpeed := v }

/-- `WaveSimulation::setDamping`. -/
def setDamping (s : WaveSimulation) (v : ℚ) : WaveSimulation :=
  { s with damping := v }

/-- `WaveSimulation::setWallReflection`. -/
def setWallReflection (s : WaveSimulation) (v : ℚ) : WaveSimulation :=
  { s with wallReflection := v }

/-- States reachable from a freshly constructed simulation through the public
API.  The transcendental helpers `expQ` / `dbToAmp` are universally
quantified per call, so reachability with the true float `exp` / `pow`
functions is included. -/
inductive Reachable : WaveSimulation → Prop where
  | init (w h : ℤ) : Reachable (init w h)
  | update (s : WaveSimulation) (dbToAmp : ℚ → ℚ) (dtFrame : ℚ) :
      Reachable s → Reachable (s.update dbToAmp dtFrame)
  | addPressureSource (s : WaveSimulation) (expQ : ℚ → ℚ) (x y : ℤ) (amp : ℚ) (radius : ℤ) :
      Reachable s → Reachable (s.addPressureSource expQ x y amp radius)
  | clear (s : WaveSimulation) : Reachable s → Reachable s.clear
  | addObstacle (s : WaveSimulation) (x y radius : ℤ) :
      Reachable s → Reachable (s.addObstacle x y radius)
  | removeObstacle (s : WaveSimulation) (x y radius : ℤ) :
      Reachable s → Reachable (s.removeObstacle x y radius)
  | clearObstacles (s : WaveSimulation) : Reachable s → Reachable s.clearObstacles
  | loadObstaclesFromSVG (s : WaveSimulation) (ok : Bool) (bytes : List Bool) :
      Reachable s → Reachable (s.loadObstaclesFromSVG ok bytes).2
  | setListenerPosition (s : WaveSimulation) (x y : ℤ) :
      Reachable s → Reachable (s.setListenerPosition x y)
  | setListenerEnabled (s : WaveSimulation) (b : Bool) :
      Reachable s → Reachable (s.setListenerEnabled b)
  | applyDampingPreset (s : WaveSimulation) (p : DampingPreset) :
      Reachable s → Reachable (s.applyDampingPreset p)
  | addAudioSource (s : WaveSimulation) (src : AudioSource) :
      Reachable s → Reachable (s.addAudioSource src)
  | removeAudioSource (s : WaveSimulation) (id : ℕ) :
      Reachable s → Reachable (s.removeAudioSource id)
  | clearAudioSources (s : WaveSimulation) : Reachable s → Reachable s.clearAudioSources
  | modifyAudioSource (s : WaveSimulation) (id : ℕ) (f : AudioSource → AudioSource) :
      Reachable s → Reachable (s.modifyAudioSource id f)
  | setWaveSpeed (s : WaveSimulation) (v : ℚ) : Reachable s → Reachable (s.setWaveSpeed v)
  | setDamping (s : WaveSimulation) (v : ℚ) : Reachable s → Reachable (s.setDamping v)
  | setWallReflection (s : WaveSimulation) (v : ℚ) :
      Reachable s → Reachable (s.setWallReflection v)

/-- The obstacle-pressure invariant that actually holds: every obstacle cell
strictly inside the grid has zero pressure in all three fields. -/
def ObstaclesPinned (s : WaveSimulation) : Prop :=
  ∀ x y : ℤ, 0 < x → x < s.width - 1 → 0 < y → y < s.height - 1 →
    s.obstacles x y = true →
    s.pressure x y = 0 ∧ s.pressurePrev x y = 0 ∧ s.pressureNext x y = 0

end WaveSimulation

/-- The read indices prescribed by spec §4.3 for one `getCurrentSample` call:
with `n` requested samples and head `pos`, a looping source reads `n` indices
cyclically; a non-looping one reads at most to the end of the buffer. -/
def specReadIndices (loop : Bool) (L pos n : ℕ) : List ℕ :=
  if loop then (List.range n).map fun i => (pos + i) % L
  else (List.range (min n (L - pos))).map fun i => pos + i

/-- Sampling contract of spec §4.3, as a closed form: if not playing, return
0 and change nothing; otherwise read up to `n = max 1 (round (rate * dt))`
samples from the head (wrapping when looping, else stopping at the end and
clearing `playing`), average the samples actually read, apply the dB gain
and the 20 Pa reference pressure. -/
def specGetCurrentSample (src : AudioSource) (dbToAmp : ℚ → ℚ) (dt : ℚ) :
    ℚ × AudioSource :=
  if src.playing = false then (0, src)
  else
    let L := src.sample.getLength
    let n : ℕ := (max 1 (cppRound ((src.sample.sampleRate : ℚ) * dt))).toNat
    let reads := (specReadIndices src.loop L src.playbackPosition n).map src.sample.getSample
    let avg : ℚ := if reads = [] then 0 else reads.sum / (reads.length : ℚ)
    let newPos : ℕ :=
      if src.loop then (src.playbackPosition + n) % L
      else min (src.playbackPosition + n) L
    let stillPlaying : Bool :=
      if src.loop then true else decide (src.playbackPosition + n < L)
    ((avg * dbToAmp src.volumeDb) * 20,
      { src with playbackPosition := newPos, playing := stillPlaying })

/-- A 4x4 obstacle byte array whose only obstacle is the boundary cell
`(1, 0)` (row-major index 1). -/
def c1Bytes : List Bool :=
  [false, true, false, false, false, false, false, false,
   false, false, false, false, false, false, false, false]

/-- A one-sample PCM buffer holding the value 1 at 48 kHz. -/
def c1Sample : AudioSample := ⟨[1], 48000, "unit"⟩

/-- A looping source over `c1Sample` placed at the interior cell `(1, 1)`
with volume 0 dB. -/
def c1Source : AudioSource := AudioSource.make c1Sample 1 1 0 true

/-- The 4x4 simulation after bulk-loading the mask `c1Bytes`, which places an
obstacle on the boundary cell `(1, 0)`. -/
def c1Loaded : WaveSimulation :=
  ((WaveSimulation.init 4 4).loadObstaclesFromSVG true c1Bytes).2

/-- `c1Loaded` with `c1Source` added and started playing. -/
def c1Playing : WaveSimulation :=
  (c1Loaded.addAudioSource c1Source).modifyAudioSource 0 AudioSource.play

/-- The frame duration used for the C1 trace: exactly one sub-step, since
`dt_max = 0.6 * 0.0086 / 343 = 129/8575000`. -/
def c1DtFrame : ℚ := 129/8575000

/-- The state `c1Playing` after the frame preamble of `update`. -/
def c1Pre : WaveSimulation := c1Playing.updatePre c1DtFrame

/-- A concrete reachable state: construct a 4x4 simulation, bulk-load the
mask `c1Bytes` (placing an obstacle on the boundary cell `(1, 0)`), add
`c1Source`, start it playing, then run one frame of exactly one sub-step.
The gain map `fun _ => 1` is only evaluated at 0 dB, where the gain
`10 ^ (0/20)` of the code is exactly 1. -/
def c1State : WaveSimulation := c1Playing.update (fun _ => 1) c1DtFrame

/-- A concrete playing, non-looping source over a two-sample buffer, used to
witness the `getCurrentSample` contract. -/
def c7Source : AudioSource := ⟨⟨[1/2, 1/4], 48000, "w"⟩, 1, 1, 0, false, true, 0⟩

section ProjectionLemmas

open WaveSimulation

variable (s : WaveSimulation)

@[simp] theorem expand_width (a b r : ℤ) : (s.expandActiveRegion a b r).width = s.width := by
  unfold expandActiveRegion; split <;> rfl

@[simp] theorem expand_height (a b r : ℤ) : (s.expandActiveRegion a b r).height = s.height := by
  unfold expandActiveRegion; split <;> rfl

@[simp] theorem expand_pressure (a b r : ℤ) :
    (s.expandActiveRegion a b r).pressure = s.pressure := by
  unfold expandActiveRegion; split <;> rfl

@[simp] theorem expand_pressurePrev (a b r : ℤ) :
    (s.expandActiveRegion a b r).pressurePrev = s.pressurePrev := by
  unfold expandActiveRegion; split <;> rfl

@[simp] theorem expand_pressureNext (a b r : ℤ) :
    (s.expandActiveRegion a b r).pressureNext = s.pressureNext := by
  unfold expandActiveRegion; split <;> rfl

@[simp] theorem expand_obstacles (a b r : ℤ) :
    (s.expandActiveRegion a b r).obstacles = s.obstacles := by
  unfold expandActiveRegion; split <;> rfl

@[simp] theorem expand_audioSources (a b r : ℤ) :
    (s.expandActiveRegion a b r).audioSources = s.audioSources := by
  unfold expandActiveRegion; split <;> rfl

@[simp] theorem expand_listenerBuffer (a b r : ℤ) :
    (s.expandActiveRegion a b r).listenerSampleBuffer = s.listenerSampleBuffer := by
  unfold expandActiveRegion; split <;> rfl

@[simp] theorem grow_width (q : ℚ) : (s.growActiveRegionForFrame q).width = s.width := by
  unfold growActiveRegionForFrame; split <;> rfl

@[simp] theorem grow_height (q : ℚ) : (s.growActiveRegionForFrame q).height = s.height := by
  unfold growActiveRegionForFrame; split <;> rfl

@[simp] theorem grow_pressure (q : ℚ) :
    (s.growActiveRegionForFrame q).pressure = s.pressure := by
  unfold growActiveRegionForFrame; split <;> rfl

@[simp] theorem grow_pressurePrev (q : ℚ) :
    (s.growActiveRegionForFrame q).pressurePrev = s.pressurePrev := by
  unfold growActiveRegionForFrame; split <;> rfl

@[simp] theorem grow_pressureNext (q : ℚ) :
    (s.growActiveRegionForFrame q).pressureNext = s.pressureNext := by
  unfold growActiveRegionForFrame; split <;> rfl

@[simp] theorem grow_obstacles (q : ℚ) :
    (s.growActiveRegionForFrame q).obstacles = s.obstacles := by
  unfold growActiveRegionForFrame; split <;> rfl

@[simp] theorem grow_audioSources (q : ℚ) :
    (s.growActiveRegionForFrame q).audioSources = s.audioSources := by
  unfold growActiveRegionForFrame; split <;> rfl

@[simp] theorem grow_listenerEnabled (q : ℚ) :
    (s.growActiveRegionForFrame q).listenerEnabled = s.listenerEnabled := by
  unfold growActiveRegionForFrame; split <;> rfl

@[simp] theorem grow_listenerBuffer (q : ℚ) :
    (s.growActiveRegionForFrame q).listenerSampleBuffer = s.listenerSampleBuffer := by
  unfold growActiveRegionForFrame; split <;> rfl

@[simp] theorem grow_dx (q : ℚ) : (s.growActiveRegionForFrame q).dx = s.dx := by
  unfold growActiveRegionForFrame; split <;> rfl

@[simp] theorem grow_soundSpeed (q : ℚ) :
    (s.growActiveRegionForFrame q).soundSpeed = s.soundSpeed := by
  unfold growActiveRegionForFrame; split <;> rfl

@[simp] theorem grow_damping (q : ℚ) :
    (s.growActiveRegionForFrame q).damping = s.damping := by
  unfold growActiveRegionForFrame; split <;> rfl

@[simp] theorem grow_wallReflection (q : ℚ) :
    (s.growActiveRegionForFrame q).wallReflection = s.wallReflection := by
  unfold growActiveRegionForFrame; split <;> rfl

end ProjectionLemmas

/-- Claim C8 (confirmed): `applyDampingPreset p` assigns the preset's damping
and wall reflection and stores the preset, and changes nothing else: all
three pressure fields, the obstacle mask, the audio sources and the listener
state are untouched. -/
theorem c8_apply_preset_effect (s : Beatfox.WaveSimulation) (p : DampingPreset) :
    (s.applyDampingPreset p).damping = p.damping ∧
    (s.applyDampingPreset p).wallReflection = p.wallReflection ∧
    (s.applyDampingPreset p).currentPreset = p ∧
    (s.applyDampingPreset p).pressure = s.pressure ∧
    (s.applyDampingPreset p).pressurePrev = s.pressurePrev ∧
    (s.applyDampingPreset p).pressureNext = s.pressureNext ∧
    (s.applyDampingPreset p).obstacles = s.obstacles ∧
    (s.applyDampingPreset p).audioSources = s.audioSources ∧
    (s.applyDampingPreset p).listenerX = s.listenerX ∧
    (s.applyDampingPreset p).listenerY = s.listenerY ∧
    (s.applyDampingPreset p).listenerEnabled = s.listenerEnabled ∧
    (s.applyDampingPreset p).listenerSampleBuffer = s.listenerSampleBuffer :=
  ⟨rfl, rfl, rfl, rfl, rfl, rfl, rfl, rfl, rfl, rfl, rfl, rfl⟩

/-- Claim C10 (confirmed): `addObstacle` and `removeObstacle` never modify a
mask cell on the one-cell boundary ring, for every center and radius. -/
theorem c10_boundary_ring_untouched (s : Beatfox.WaveSimulation) (x y radius px py : ℤ)
    (h : px = 0 ∨ px = s.width - 1 ∨ py = 0 ∨ py = s.height - 1) :
    (s.addObstacle x y radius).obstacles px py = s.obstacles px py ∧
    (s.removeObstacle x y radius).obstacles px py = s.obstacles px py := by
  have hnot : ¬ s.diskHit x y radius px py := by
    unfold WaveSimulation.diskHit
    rintro ⟨h1, h2, h3, h4, -, -⟩
    omega
  constructor <;>
    simp [WaveSimulation.addObstacle, WaveSimulation.removeObstacle, hnot]

/-- Witness for C10 at a concrete input: the corner cell `(0, 0)` of a 4x4
grid survives an `addObstacle`/`removeObstacle` pair centred at `(1, 1)`. -/
theorem c10_boundary_ring_untouched_witness :
    ((Beatfox.WaveSimulation.init 4 4).addObstacle 1 1 2).obstacles 0 0 =
      (Beatfox.WaveSimulation.init 4 4).obstacles 0 0 ∧
    ((Beatfox.WaveSimulation.init 4 4).removeObstacle 1 1 2).obstacles 0 0 =
      (Beatfox.WaveSimulation.init 4 4).obstacles 0 0 :=
  c10_boundary_ring_untouched (Beatfox.WaveSimulation.init 4 4) 1 1 2 0 0 (Or.inl rfl)

/-- Claim C2 (confirmed): for `dt_frame > 0`, the sub-step duration
`dt = dt_frame / ceil(dt_frame / (0.6 * dx / c))` chosen by `update`
satisfies `c * dt / dx ≤ 0.6`, and at least one sub-step is executed. -/
theorem c2_cfl_respected (s : Beatfox.WaveSimulation) (f : ℚ)
    (hf : 0 < f) (hdx : 0 < s.dx) (hc : 0 < s.soundSpeed) :
    s.soundSpeed * s.subStepDt f / s.dx ≤ 6/10 ∧ 1 ≤ s.numSubSteps f := by
  have hq : (0 : ℚ) < 6/10 := by norm_num
  have hdtm : 0 < s.dtMax := by
    unfold WaveSimulation.dtMax
    exact div_pos (mul_pos hq hdx) hc
  have hn0 : 0 < s.numSubSteps f := by
    unfold WaveSimulation.numSubSteps
    exact Int.ceil_pos.mpr (div_pos hf hdtm)
  have hnQ : (0 : ℚ) < ((s.numSubSteps f : ℤ) : ℚ) := by exact_mod_cast hn0
  have hle : f / s.dtMax ≤ ((s.numSubSteps f : ℤ) : ℚ) := Int.le_ceil _
  have hdt : s.subStepDt f ≤ s.dtMax := by
    unfold WaveSimulation.subStepDt
    rw [div_le_iff₀ hnQ]
    calc f = f / s.dtMax * s.dtMax := (div_mul_cancel₀ f (ne_of_gt hdtm)).symm
    _ ≤ ((s.numSubSteps f : ℤ) : ℚ) * s.dtMax :=
        mul_le_mul_of_nonneg_right hle hdtm.le
    _ = s.dtMax * ((s.numSubSteps f : ℤ) : ℚ) := mul_comm _ _
  refine ⟨?_, hn0⟩
  have hmono : s.soundSpeed * s.subStepDt f / s.dx ≤ s.soundSpeed * s.dtMax / s.dx :=
    (div_le_div_iff_of_pos_right hdx).mpr (mul_le_mul_of_nonneg_left hdt hc.le)
  have heq : s.soundSpeed * s.dtMax / s.dx = 6/10 := by
    unfold WaveSimulation.dtMax
    rw [mul_comm s.soundSpeed, div_mul_cancel₀ _ (ne_of_gt hc), mul_div_assoc,
      div_self (ne_of_gt hdx), mul_one]
  rw [heq] at hmono
  exact hmono

/-- Witness for C2 at a concrete input: a fresh 4x4 simulation updated with
`dt_frame = 1/60` respects the CFL bound. -/
theorem c2_cfl_respected_witness :
    (Beatfox.WaveSimulation.init 4 4).soundSpeed *
        (Beatfox.WaveSimulation.init 4 4).subStepDt (1/60) /
        (Beatfox.WaveSimulation.init 4 4).dx ≤ 6/10 ∧
    1 ≤ (Beatfox.WaveSimulation.init 4 4).numSubSteps (1/60) :=
  c2_cfl_respected (Beatfox.WaveSimulation.init 4 4) (1/60) (by norm_num)
    (by norm_num [WaveSimulation.init]) (by norm_num [WaveSimulation.init])

/-- Counterexample to claim C9 as stated: on a 4x4 grid whose cell `(1, 1)`
is already an obstacle, `addObstacle(1,1,0)` followed by
`removeObstacle(1,1,0)` clears that cell, so the mask is not restored. -/
theorem c9_counterexample :
    ((((Beatfox.WaveSimulation.init 4 4).addObstacle 1 1 0).addObstacle 1 1 0).removeObstacle
        1 1 0).obstacles 1 1 ≠
      ((Beatfox.WaveSimulation.init 4 4).addObstacle 1 1 0).obstacles 1 1 := by
  decide

/-- Claim C9 amended (proved): `addObstacle(x,y,r); removeObstacle(x,y,r)`
leaves every mask cell equal to its old value except the interior cells of
the disk, which are cleared; in particular the mask is restored exactly when
no interior disk cell was an obstacle before the calls. -/
theorem c9_add_remove_mask (s : Beatfox.WaveSimulation) (x y radius px py : ℤ) :
    ((s.addObstacle x y radius).removeObstacle x y radius).obstacles px py =
      if s.diskHit x y radius px py then false else s.obstacles px py := by
  by_cases hd : s.diskHit x y radius px py
  · have hd' : (s.addObstacle x y radius).diskHit x y radius px py := hd
    show (if (s.addObstacle x y radius).diskHit x y radius px py then false
          else (s.addObstacle x y radius).obstacles px py) = _
    rw [if_pos hd', if_pos hd]
  · have hd' : ¬ (s.addObstacle x y radius).diskHit x y radius px py := hd
    show (if (s.addObstacle x y radius).diskHit x y radius px py then false
          else (s.addObstacle x y radius).obstacles px py) = _
    rw [if_neg hd', if_neg hd]
    show (if s.diskHit x y radius px py then true else s.obstacles px py) = _
    rw [if_neg hd]

/-- Counterexample to claim C4 as stated: start from a 4x4 grid with an
obstacle at `(1, 1)` and attempt a bulk load whose byte array has length 1
(not `W*H = 16`).  The load fails, but the previous mask is not left intact:
the method cleared it before validating, so cell `(1, 1)` is fluid after the
call. -/
theorem c4_counterexample :
    (((Beatfox.WaveSimulation.init 4 4).addObstacle 1 1 0).loadObstaclesFromSVG
        true [true]).2.obstacles 1 1 ≠
      ((Beatfox.WaveSimulation.init 4 4).addObstacle 1 1 0).obstacles 1 1 := by
  decide

/-- Claim C4 amended (proved): when loading an obstacle mask fails (rasterizer
failure or a byte array whose length differs from `W*H`), the operation
returns an error, but instead of leaving the previous mask intact it leaves
the mask fully cleared (all cells fluid) and all three pressure fields
zeroed, because `loadObstaclesFromSVG` clears both before validating. -/
theorem c4_load_failure_clears (s : Beatfox.WaveSimulation) (ok : Bool) (bytes : List Bool)
    (h : ok = false ∨ (bytes.length : ℤ) ≠ s.width * s.height) :
    (s.loadObstaclesFromSVG ok bytes).1 = false ∧
    ∀ x y : ℤ,
      (s.loadObstaclesFromSVG ok bytes).2.obstacles x y = false ∧
      (s.loadObstaclesFromSVG ok bytes).2.pressure x y = 0 ∧
      (s.loadObstaclesFromSVG ok bytes).2.pressurePrev x y = 0 ∧
      (s.loadObstaclesFromSVG ok bytes).2.pressureNext x y = 0 := by
  cases ok with
  | false =>
      simp [WaveSimulation.loadObstaclesFromSVG, WaveSimulation.clear,
        WaveSimulation.clearObstacles]
  | true =>
      have h2 : (bytes.length : ℤ) ≠ s.width * s.height := by
        rcases h with h | h
        · exact absurd h (by simp)
        · exact h
      simp [WaveSimulation.loadObstaclesFromSVG, h2, WaveSimulation.clear,
        WaveSimulation.clearObstacles]

/-- Witness for the amended C4 at a concrete input: the failed 1-byte load on
a 4x4 grid returns an error and leaves an all-clear mask and zero fields. -/
theorem c4_load_failure_clears_witness :
    ((((Beatfox.WaveSimulation.init 4 4).addObstacle 1 1 0).loadObstaclesFromSVG
        true [true]).1 = false) ∧
    ∀ x y : ℤ,
      (((Beatfox.WaveSimulation.init 4 4).addObstacle 1 1 0).loadObstaclesFromSVG
          true [true]).2.obstacles x y = false ∧
      (((Beatfox.WaveSimulation.init 4 4).addObstacle 1 1 0).loadObstaclesFromSVG
          true [true]).2.pressure x y = 0 ∧
      (((Beatfox.WaveSimulation.init 4 4).addObstacle 1 1 0).loadObstaclesFromSVG
          true [true]).2.pressurePrev x y = 0 ∧
      (((Beatfox.WaveSimulation.init 4 4).addObstacle 1 1 0).loadObstaclesFromSVG
          true [true]).2.pressureNext x y = 0 :=
  c4_load_failure_clears _ true [true] (Or.inr (by decide))

/-- Counterexample to claim C5 as stated: on a fresh 4x4 grid, the rejected
call `addPressureSource(2, 2, -1, 2)` (invalid amplitude, in-bounds centre)
does change state: the active region is expanded before validation, so its
`hasActivity` flag flips from `false` to `true`. -/
theorem c5_counterexample :
    ((Beatfox.WaveSimulation.init 4 4).addPressureSource (fun _ => 1) 2 2 (-1)
        2).activeRegion.hasActivity ≠
      (Beatfox.WaveSimulation.init 4 4).activeRegion.hasActivity := by
  decide

/-- Claim C5 amended (proved): for an in-bounds centre, a call with an
amplitude outside `(0, 1000]` or a radius outside `[1, 50]` is rejected and
leaves the pressure fields and the obstacle mask unchanged, but the active
region has already been expanded by `expandActiveRegion(x, y, 2 * radius)`
before the validation runs. -/
theorem c5_reject_leaves_fields (s : Beatfox.WaveSimulation) (expQ : ℚ → ℚ)
    (x y : ℤ) (amp : ℚ) (radius : ℤ)
    (hx1 : 0 ≤ x) (hx2 : x < s.width) (hy1 : 0 ≤ y) (hy2 : y < s.height)
    (hbad : amp ≤ 0 ∨ 1000 < amp ∨ radius < 1 ∨ 50 < radius) :
    (s.addPressureSource expQ x y amp radius).pressure = s.pressure ∧
    (s.addPressureSource expQ x y amp radius).pressurePrev = s.pressurePrev ∧
    (s.addPressureSource expQ x y amp radius).pressureNext = s.pressureNext ∧
    (s.addPressureSource expQ x y amp radius).obstacles = s.obstacles ∧
    (s.addPressureSource expQ x y amp radius).activeRegion =
      (s.expandActiveRegion x y (radius * 2)).activeRegion := by
  have hib : ¬ (x < 0 ∨ s.width ≤ x ∨ y < 0 ∨ s.height ≤ y) := by omega
  unfold WaveSimulation.addPressureSource
  rw [if_neg hib]
  by_cases hamp : amp ≤ 0 ∨ 1000 < amp
  · rw [if_pos hamp]
    exact ⟨by simp, by simp, by simp, by simp, rfl⟩
  · rw [if_neg hamp]
    have hrad : radius < 1 ∨ 50 < radius := by tauto
    rw [if_pos hrad]
    exact ⟨by simp, by simp, by simp, by simp, rfl⟩

/-- Witness for the amended C5 at a concrete input: the rejected call of
`c5_counterexample` leaves fields and mask unchanged and its active region
equals the pre-validation expansion. -/
theorem c5_reject_leaves_fields_witness :
    ((Beatfox.WaveSimulation.init 4 4).addPressureSource (fun _ => 1) 2 2 (-1) 2).pressure =
      (Beatfox.WaveSimulation.init 4 4).pressure ∧
    ((Beatfox.WaveSimulation.init 4 4).addPressureSource (fun _ => 1) 2 2 (-1)
        2).pressurePrev = (Beatfox.WaveSimulation.init 4 4).pressurePrev ∧
    ((Beatfox.WaveSimulation.init 4 4).addPressureSource (fun _ => 1) 2 2 (-1)
        2).pressureNext = (Beatfox.WaveSimulation.init 4 4).pressureNext ∧
    ((Beatfox.WaveSimulation.init 4 4).addPressureSource (fun _ => 1) 2 2 (-1)
        2).obstacles = (Beatfox.WaveSimulation.init 4 4).obstacles ∧
    ((Beatfox.WaveSimulation.init 4 4).addPressureSource (fun _ => 1) 2 2 (-1)
        2).activeRegion =
      ((Beatfox.WaveSimulation.init 4 4).expandActiveRegion 2 2 (2 * 2)).activeRegion :=
  c5_reject_leaves_fields (Beatfox.WaveSimulation.init 4 4) (fun _ => 1) 2 2 (-1) 2
    (by norm_num) (by norm_num [WaveSimulation.init]) (by norm_num)
    (by norm_num [WaveSimulation.init]) (Or.inl (by norm_num))

/-- Counterexample to claim C6 as stated: on a fresh 5x5 grid, the valid call
`addPressureSource(2, 2, 10, 1)` adds pressure to the cell `(3, 3)`, whose
offset `(1, 1)` has distance `sqrt 2 > r = 1`, so by the claim it should
receive nothing.  The profile function `fun _ => 1` is an admissible stand-in
for `exp`, which is everywhere positive; with the real exponential the cell
receives `10 * exp(-2 / (2 * 1.25^2)) ≈ 5.3`, likewise nonzero. -/
theorem c6_counterexample :
    ((Beatfox.WaveSimulation.init 5 5).addPressureSource (fun _ => 1) 2 2 10 1).pressure 3 3 ≠
      (Beatfox.WaveSimulation.init 5 5).pressure 3 3 := by
  have hlhs : ((Beatfox.WaveSimulation.init 5 5).addPressureSource (fun _ => 1)
      2 2 10 1).pressure 3 3 = 0 + 10 * 1 := rfl
  have hrhs : (Beatfox.WaveSimulation.init 5 5).pressure 3 3 = 0 := rfl
  rw [hlhs, hrhs]
  norm_num

/-- Claim C6 amended (proved): a valid impulse call adds
`amplitude * exp(-rho^2 / (2 * sigma^2))` with `sigma = 1.25 * r` at every
offset `(dx, dy)` of the full square `|dx| ≤ r`, `|dy| ≤ r` whose cell is
strictly interior and not an obstacle, and changes no other cell; there is no
disk cutoff at distance `r`. -/
theorem c6_impulse_square (s : Beatfox.WaveSimulation) (expQ : ℚ → ℚ) (x y : ℤ)
    (amp : ℚ) (radius px py : ℤ)
    (hx1 : 0 ≤ x) (hx2 : x < s.width) (hy1 : 0 ≤ y) (hy2 : y < s.height)
    (hamp1 : 0 < amp) (hamp2 : amp ≤ 1000) (hrad1 : 1 ≤ radius) (hrad2 : radius ≤ 50) :
    (s.addPressureSource expQ x y amp radius).pressure px py =
      (if -radius ≤ px - x ∧ px - x ≤ radius ∧ -radius ≤ py - y ∧ py - y ≤ radius ∧
          0 < px ∧ px < s.width - 1 ∧ 0 < py ∧ py < s.height - 1 ∧
          s.obstacles px py = false then
        s.pressure px py +
          amp * expQ (-((((px - x) * (px - x) + (py - y) * (py - y) : ℤ)) : ℚ) /
            (2 * ((radius : ℚ) * (5/4)) * ((radius : ℚ) * (5/4))))
      else s.pressure px py) := by
  have hib : ¬ (x < 0 ∨ s.width ≤ x ∨ y < 0 ∨ s.height ≤ y) := by omega
  have hamp' : ¬ (amp ≤ 0 ∨ 1000 < amp) := by
    rintro (hle | hlt)
    · exact absurd hamp1 (not_lt_of_le hle)
    · exact absurd hamp2 (not_le_of_lt hlt)
  have hrad' : ¬ (radius < 1 ∨ 50 < radius) := by omega
  unfold WaveSimulation.addPressureSource
  rw [if_neg hib, if_neg hamp', if_neg hrad']
  simp only [expand_pressure]

/-- Witness for the amended C6 at a concrete input: the call of
`c6_counterexample` adds `10 * expQ (-2 / (2 * (5/4) * (5/4)))` at `(3, 3)`. -/
theorem c6_impulse_square_witness :
    ((Beatfox.WaveSimulation.init 5 5).addPressureSource (fun _ => 1) 2 2 10 1).pressure 3 3 =
      (if -1 ≤ (3 : ℤ) - 2 ∧ (3 : ℤ) - 2 ≤ 1 ∧ -1 ≤ (3 : ℤ) - 2 ∧ (3 : ℤ) - 2 ≤ 1 ∧
          (0 : ℤ) < 3 ∧ (3 : ℤ) < (Beatfox.WaveSimulation.init 5 5).width - 1 ∧
          (0 : ℤ) < 3 ∧ (3 : ℤ) < (Beatfox.WaveSimulation.init 5 5).height - 1 ∧
          (Beatfox.WaveSimulation.init 5 5).obstacles 3 3 = false then
        (Beatfox.WaveSimulation.init 5 5).pressure 3 3 +
          10 * (fun _ : ℚ => (1 : ℚ))
            (-((((3 : ℤ) - 2) * ((3 : ℤ) - 2) + ((3 : ℤ) - 2) * ((3 : ℤ) - 2) : ℤ) : ℚ) /
              (2 * ((1 : ℤ) : ℚ) * (5/4) * (((1 : ℤ) : ℚ) * (5/4))))
      else (Beatfox.WaveSimulation.init 5 5).pressure 3 3) := by
  have h := c6_impulse_square (Beatfox.WaveSimulation.init 5 5) (fun _ => 1) 2 2 10 1 3 3
    (by norm_num) (by norm_num [WaveSimulation.init]) (by norm_num)
    (by norm_num [WaveSimulation.init]) (by norm_num) (by norm_num)
    (by norm_num) (by norm_num)
  rw [h]

@[simp] theorem updateStepCore_listenerEnabled (a : ℚ → ℚ) (dt : ℚ)
    (s : Beatfox.WaveSimulation) :
    (WaveSimulation.updateStepCore a dt s).listenerEnabled = s.listenerEnabled := rfl

@[simp] theorem updateStepCore_buffer (a : ℚ → ℚ) (dt : ℚ) (s : Beatfox.WaveSimulation) :
    (WaveSimulation.updateStepCore a dt s).listenerSampleBuffer =
      s.listenerSampleBuffer := rfl

@[simp] theorem updateStep_listenerEnabled (a : ℚ → ℚ) (dt : ℚ)
    (s : Beatfox.WaveSimulation) :
    (WaveSimulation.updateStep a dt s).listenerEnabled = s.listenerEnabled := by
  unfold WaveSimulation.updateStep
  split <;> rfl

theorem updateStep_buffer_of_enabled (a : ℚ → ℚ) (dt : ℚ) (s : Beatfox.WaveSimulation)
    (h : s.listenerEnabled = true) :
    (WaveSimulation.updateStep a dt s).listenerSampleBuffer =
      s.listenerSampleBuffer ++
        [(WaveSimulation.updateStep a dt s).getListenerPressure] := by
  unfold WaveSimulation.updateStep
  rw [if_pos h]
  exact rfl

theorem iterate_updateStep_buffer (a : ℚ → ℚ) (dt : ℚ) :
    ∀ (k : ℕ) (s : Beatfox.WaveSimulation), s.listenerEnabled = true →
      ((WaveSimulation.updateStep a dt)^[k] s).listenerSampleBuffer =
        s.listenerSampleBuffer ++
          (List.range k).map
            (fun i => ((WaveSimulation.updateStep a dt)^[i+1] s).getListenerPressure) := by
  intro k
  induction k with
  | zero => intro s h; simp
  | succ n ih =>
      intro s h
      rw [Function.iterate_succ_apply]
      rw [ih (WaveSimulation.updateStep a dt s) (by rw [updateStep_listenerEnabled]; exact h)]
      rw [updateStep_buffer_of_enabled a dt s h]
      rw [List.range_succ_eq_map]
      simp [List.map_cons, List.map_map, Function.comp, Function.iterate_succ_apply,
        Function.iterate_one, List.append_assoc, Nat.succ_eq_add_one]

@[simp] theorem updatePre_listenerEnabled (s : Beatfox.WaveSimulation) (f : ℚ) :
    (s.updatePre f).listenerEnabled = s.listenerEnabled := by
  unfold WaveSimulation.updatePre
  rw [grow_listenerEnabled]

@[simp] theorem updatePre_buffer (s : Beatfox.WaveSimulation) (f : ℚ) :
    (s.updatePre f).listenerSampleBuffer = [] := by
  unfold WaveSimulation.updatePre
  rw [grow_listenerBuffer]

/-- Claim C3 (confirmed): with the listener enabled and `dt_frame > 0`, after
`update(dt_frame)` the listener sample buffer holds exactly
`n = ceil(dt_frame / (0.6 * dx / c))` samples: it is cleared at the start of
the frame and the `i`-th entry is the listener-cell pressure observed right
after the `(i+1)`-th sub-step, in sub-step order. -/
theorem c3_listener_cardinality (s : Beatfox.WaveSimulation) (a : ℚ → ℚ) (f : ℚ)
    (h1 : s.listenerEnabled = true) (h2 : 0 < f) (h3 : 0 < s.dx)
    (h4 : 0 < s.soundSpeed) :
    (s.update a f).listenerSampleBuffer =
      (List.range (s.numSubSteps f).toNat).map
        (fun i => ((WaveSimulation.updateStep a (s.subStepDt f))^[i+1]
          (s.updatePre f)).getListenerPressure) ∧
    (s.update a f).listenerSampleBuffer.length = (s.numSubSteps f).toNat ∧
    1 ≤ s.numSubSteps f := by
  have hpre : (s.updatePre f).listenerEnabled = true := by rw [updatePre_listenerEnabled]; exact h1
  have hmain := iterate_updateStep_buffer a (s.subStepDt f) (s.numSubSteps f).toNat
    (s.updatePre f) hpre
  have hbuf : (s.update a f).listenerSampleBuffer =
      (List.range (s.numSubSteps f).toNat).map
        (fun i => ((WaveSimulation.updateStep a (s.subStepDt f))^[i+1]
          (s.updatePre f)).getListenerPressure) := by
    unfold WaveSimulation.update
    rw [hmain, updatePre_buffer, List.nil_append]
  have hn : 1 ≤ s.numSubSteps f := by
    have hdtm : 0 < s.dtMax := by
      unfold WaveSimulation.dtMax
      exact div_pos (mul_pos (by norm_num) h3) h4
    have h0 : 0 < s.numSubSteps f := by
      unfold WaveSimulation.numSubSteps
      exact Int.ceil_pos.mpr (div_pos h2 hdtm)
    exact h0
  exact ⟨hbuf, by rw [hbuf]; simp, hn⟩

/-- Witness for C3 at a concrete input: a fresh 4x4 simulation with the
listener enabled, updated with `dt_frame = dt_max` (one sub-step). -/
theorem c3_listener_cardinality_witness :
    (((Beatfox.WaveSimulation.init 4 4).setListenerEnabled true).update (fun _ => 1)
        (129/8575000)).listenerSampleBuffer =
      (List.range
          (((Beatfox.WaveSimulation.init 4 4).setListenerEnabled true).numSubSteps
            (129/8575000)).toNat).map
        (fun i => ((WaveSimulation.updateStep (fun _ => 1)
            (((Beatfox.WaveSimulation.init 4 4).setListenerEnabled true).subStepDt
              (129/8575000)))^[i+1]
          (((Beatfox.WaveSimulation.init 4 4).setListenerEnabled true).updatePre
            (129/8575000))).getListenerPressure) ∧
    (((Beatfox.WaveSimulation.init 4 4).setListenerEnabled true).update (fun _ => 1)
        (129/8575000)).listenerSampleBuffer.length =
      (((Beatfox.WaveSimulation.init 4 4).setListenerEnabled true).numSubSteps
        (129/8575000)).toNat ∧
    1 ≤ ((Beatfox.WaveSimulation.init 4 4).setListenerEnabled true).numSubSteps
        (129/8575000) :=
  c3_listener_cardinality ((Beatfox.WaveSimulation.init 4 4).setListenerEnabled true)
    (fun _ => 1) (129/8575000) rfl (by norm_num)
    (by norm_num [WaveSimulation.init, WaveSimulation.setListenerEnabled])
    (by norm_num [WaveSimulation.init, WaveSimulation.setListenerEnabled])

theorem min_succ_sub_of_end (L n pos : ℕ) (h : pos < L) (hend : L ≤ pos + 1) :
    min (n + 1) (L - pos) = 1 := by
  have hL : L = pos + 1 := Nat.le_antisymm hend h
  rw [hL, Nat.add_sub_cancel_left]
  exact min_eq_right (Nat.succ_le_succ (Nat.zero_le n))

theorem min_succ_sub_of_lt (L n pos : ℕ) (hlt2 : pos + 1 < L) :
    min (n + 1) (L - pos) = min n (L - (pos + 1)) + 1 := by
  have h1 : 1 ≤ L - pos :=
    Nat.le_sub_of_add_le (by rw [Nat.add_comm]; exact Nat.le_of_lt hlt2)
  have h2 : L - pos = (L - (pos + 1)) + 1 := by
    rw [← Nat.sub_sub]
    exact (Nat.sub_add_cancel h1).symm
  rw [h2]
  exact Nat.succ_min_succ n (L - (pos + 1))

theorem add_min_sub_eq (pos k L : ℕ) (h : pos ≤ L) :
    pos + min k (L - pos) = min (pos + k) L := by
  conv_rhs => rw [← Nat.add_sub_cancel' h]
  exact (min_add_add_left pos k (L - pos)).symm

theorem srcRead_loop (smp : AudioSample) :
    ∀ (fuel pos : ℕ), pos < smp.getLength →
      srcRead smp true fuel pos =
        (((List.range fuel).map (fun i => smp.getSample ((pos + i) % smp.getLength))).sum,
         fuel, (pos + fuel) % smp.getLength, true) := by
  intro fuel
  induction fuel with
  | zero =>
      intro pos h
      simp [srcRead, Nat.mod_eq_of_lt h]
  | succ n ih =>
      intro pos h
      have hL : 0 < smp.getLength := by omega
      have hmod1 : pos % smp.getLength = pos := Nat.mod_eq_of_lt h
      by_cases hend : smp.getLength ≤ pos + 1
      · have hfun : ((fun i => smp.getSample ((pos + i) % smp.getLength)) ∘ Nat.succ) =
            fun i => smp.getSample (i % smp.getLength) := by
          funext i
          simp only [Function.comp_apply]
          rw [show pos + Nat.succ i = smp.getLength + i by omega, Nat.add_mod_left]
        have hmod2 : (pos + (n + 1)) % smp.getLength = n % smp.getLength := by
          rw [show pos + (n + 1) = smp.getLength + n by omega, Nat.add_mod_left]
        simp [srcRead, h, hend, ih 0 hL, List.range_succ_eq_map, List.map_map,
          hfun, hmod1, hmod2]
      · have hlt2 : pos + 1 < smp.getLength := by omega
        have hfun : ((fun i => smp.getSample ((pos + i) % smp.getLength)) ∘ Nat.succ) =
            fun i => smp.getSample ((pos + 1 + i) % smp.getLength) := by
          funext i
          simp only [Function.comp_apply]
          congr 2
          omega
        have hmod3 : (pos + (n + 1)) % smp.getLength =
            (pos + 1 + n) % smp.getLength := by
          rw [show pos + (n + 1) = pos + 1 + n by omega]
        simp [srcRead, h, hend, ih (pos + 1) hlt2, List.range_succ_eq_map,
          List.map_map, hfun, hmod1, hmod3]

theorem srcRead_noloop (smp : AudioSample) :
    ∀ (fuel pos : ℕ), pos < smp.getLength →
      srcRead smp false fuel pos =
        (((List.range (min fuel (smp.getLength - pos))).map
            (fun i => smp.getSample (pos + i))).sum,
         min fuel (smp.getLength - pos), pos + min fuel (smp.getLength - pos),
         decide (pos + fuel < smp.getLength)) := by
  intro fuel
  induction fuel with
  | zero =>
      intro pos h
      simp [srcRead, h]
  | succ n ih =>
      intro pos h
      have hstep : srcRead smp false (n + 1) pos =
          if pos < smp.getLength then
            if smp.getLength ≤ pos + 1 then
              (smp.getSample pos, 1, pos + 1, false)
            else
              (smp.getSample pos + (srcRead smp false n (pos + 1)).1,
               (srcRead smp false n (pos + 1)).2.1 + 1,
               (srcRead smp false n (pos + 1)).2.2.1,
               (srcRead smp false n (pos + 1)).2.2.2)
          else (0, 0, pos, true) := rfl
      by_cases hend : smp.getLength ≤ pos + 1
      · have hm : min (n + 1) (smp.getLength - pos) = 1 :=
          min_succ_sub_of_end _ _ _ h hend
        have hd : (decide (pos + (n + 1) < smp.getLength)) = false :=
          decide_eq_false (Nat.not_lt.mpr (Nat.le_trans hend
            (Nat.add_le_add_left (Nat.succ_le_succ (Nat.zero_le n)) pos)))
        rw [hstep, if_pos h, if_pos hend, hm, hd,
          show List.range 1 = [0] from rfl, List.map_singleton, List.sum_singleton]
        exact rfl
      · have hlt2 : pos + 1 < smp.getLength := Nat.gt_of_not_le hend
        have hm : min (n + 1) (smp.getLength - pos) =
            min n (smp.getLength - (pos + 1)) + 1 :=
          min_succ_sub_of_lt _ _ _ hlt2
        have hfun : ((fun i => smp.getSample (pos + i)) ∘ Nat.succ) =
            fun i => smp.getSample (pos + 1 + i) := by
          funext i
          simp only [Function.comp_apply]
          congr 1
          omega
        have hb : pos + (n + 1) = pos + 1 + n := by omega
        rw [hstep, if_pos h, if_neg hend, ih (pos + 1) hlt2, hm, hb]
        show (smp.getSample pos +
              ((List.range (min n (smp.getLength - (pos + 1)))).map
                (fun i => smp.getSample (pos + 1 + i))).sum,
              min n (smp.getLength - (pos + 1)) + 1,
              pos + 1 + min n (smp.getLength - (pos + 1)),
              decide (pos + 1 + n < smp.getLength)) = _
        refine congrArg₂ Prod.mk ?_
          (congrArg₂ Prod.mk rfl (congrArg₂ Prod.mk (by omega) rfl))
        rw [List.range_succ_eq_map, List.map_cons, List.map_map, List.sum_cons, hfun]
        exact rfl

/-- Claim C7 (confirmed): `AudioSource::getCurrentSample` implements the
sampling contract of spec §4.3.  If the source is not playing it returns 0
and changes nothing.  Otherwise it reads up to
`n = max 1 (round (sample_rate * dt))` PCM samples starting at the play head
(wrapping the head to 0 at the end of the buffer when `loop` is set,
otherwise stopping early and clearing `playing`), and returns the average of
the samples actually read multiplied by the linear gain of `volume_db` and
by the 20 Pa reference pressure.  Stated as equality with the closed-form
`specGetCurrentSample`, for every gain map `dbToAmp` (in particular the real
`10 ^ (db/20)`); the hypothesis is the play-head invariant maintained by
every `AudioSource` operation. -/
theorem c7_get_current_sample (src : AudioSource) (dbToAmp : ℚ → ℚ) (dt : ℚ)
    (hpos : src.playing = true → src.playbackPosition < src.sample.getLength) :
    src.getCurrentSample dbToAmp dt = specGetCurrentSample src dbToAmp dt := by
  by_cases hp : src.playing = true
  · have hlt := hpos hp
    have hfalse : ¬ (src.playing = false) := by simp [hp]
    have hn1 : (1 : ℤ) ≤ max 1 (cppRound ((src.sample.sampleRate : ℚ) * dt)) :=
      le_max_left _ _
    cases hloop : src.loop with
    | true =>
        have hread := srcRead_loop src.sample
          (max 1 (cppRound ((src.sample.sampleRate : ℚ) * dt))).toNat
          src.playbackPosition hlt
        have hcnt : (0 : ℕ) <
            (max 1 (cppRound ((src.sample.sampleRate : ℚ) * dt))).toNat :=
          Int.lt_toNat.mpr (lt_of_lt_of_le zero_lt_one hn1)
        have hne : (List.range
              (max 1 (cppRound ((src.sample.sampleRate : ℚ) * dt))).toNat).map
            (fun i => src.sample.getSample
              ((src.playbackPosition + i) % src.sample.getLength)) ≠ [] :=
          List.length_pos.mp
            (by simp only [List.length_map, List.length_range]; exact hcnt)
        simp [AudioSource.getCurrentSample, specGetCurrentSample, specReadIndices,
          hp, hloop, hfalse, hread, List.map_map, Function.comp_def, hne, hcnt]
    | false =>
        have hread := srcRead_noloop src.sample
          (max 1 (cppRound ((src.sample.sampleRate : ℚ) * dt))).toNat
          src.playbackPosition hlt
        have hmin : (0 : ℕ) <
            min (max 1 (cppRound ((src.sample.sampleRate : ℚ) * dt))).toNat
              (src.sample.getLength - src.playbackPosition) :=
          lt_min_iff.mpr ⟨Int.lt_toNat.mpr (lt_of_lt_of_le zero_lt_one hn1),
            Nat.sub_pos_of_lt hlt⟩
        have hne : (List.range
            (min (max 1 (cppRound ((src.sample.sampleRate : ℚ) * dt))).toNat
              (src.sample.getLength - src.playbackPosition))).map
            (fun i => src.sample.getSample (src.playbackPosition + i)) ≠ [] :=
          List.length_pos.mp
            (by simp only [List.length_map, List.length_range]; exact hmin)
        have ha : src.playbackPosition +
            min (max 1 (cppRound ((src.sample.sampleRate : ℚ) * dt))).toNat
              (src.sample.getLength - src.playbackPosition) =
            min (src.playbackPosition +
              (max 1 (cppRound ((src.sample.sampleRate : ℚ) * dt))).toNat)
              src.sample.getLength :=
          add_min_sub_eq _ _ _ (Nat.le_of_lt hlt)
        simp [AudioSource.getCurrentSample, specGetCurrentSample, specReadIndices,
          hp, hloop, hfalse, hread, List.map_map, Function.comp_def, hne, hmin, ha]
  · have hp' : src.playing = false := by
      revert hp
      cases src.playing <;> simp
    simp [AudioSource.getCurrentSample, specGetCurrentSample, hp']

/-- Witness for C7 at a concrete input: the playing non-looping source
`c7Source` sampled with `dt = 1/48000` (one PCM sample read). -/
theorem c7_get_current_sample_witness :
    c7Source.getCurrentSample (fun _ => 1) (1/48000) =
      specGetCurrentSample c7Source (fun _ => 1) (1/48000) :=
  c7_get_current_sample c7Source (fun _ => 1) (1/48000)
    (fun _ => by norm_num [c7Source, AudioSample.getLength])

theorem injectSources_obstacle (a : ℚ → ℚ) (w h : ℤ) (obst : ObstacleMask) (dt : ℚ) :
    ∀ (srcs : List AudioSource) (p : Grid) (x y : ℤ), obst x y = true →
      (WaveSimulation.injectSources a w h obst dt srcs p).1 x y = p x y := by
  intro srcs
  induction srcs with
  | nil =>
      intro p x y hob
      rfl
  | cons src rest ih =>
      intro p x y hob
      unfold WaveSimulation.injectSources
      by_cases hplay : src.playing = true
      · rw [if_pos hplay]
        show (WaveSimulation.injectSources a w h obst dt rest _).1 x y = p x y
        rw [ih _ x y hob]
        by_cases hguard : 0 < src.x ∧ src.x < w - 1 ∧ 0 < src.y ∧ src.y < h - 1 ∧
            obst src.x src.y = false
        · rw [if_pos hguard]
          by_cases hxy : x = src.x ∧ y = src.y
          · exfalso
            obtain ⟨hx, hy⟩ := hxy
            have hfree := hguard.2.2.2.2
            rw [← hx, ← hy, hob] at hfree
            exact Bool.noConfusion hfree
          · exact if_neg hxy
        · rw [if_neg hguard]
      · rw [if_neg hplay]
        show (WaveSimulation.injectSources a w h obst dt rest p).1 x y = p x y
        exact ih p x y hob

theorem stencilNext_obstacle (d c2 : ℚ) (w h : ℤ) (obst : ObstacleMask)
    (p pp pn : Grid) (x y : ℤ) (hx1 : 0 < x) (hx2 : x < w - 1)
    (hy1 : 0 < y) (hy2 : y < h - 1) (hob : obst x y = true) :
    WaveSimulation.stencilNext d c2 w h obst p pp pn x y = 0 := by
  unfold WaveSimulation.stencilNext
  rw [if_pos ⟨by omega, by omega, by omega, by omega⟩, if_pos hob]

theorem boundaryAbsorbing_interior (ab : ℚ) (w h : ℤ) (p nx : Grid) (x y : ℤ)
    (hx1 : 0 < x) (hx2 : x < w - 1) (hy1 : 0 < y) (hy2 : y < h - 1) :
    WaveSimulation.boundaryAbsorbing ab w h p nx x y = nx x y := by
  unfold WaveSimulation.boundaryAbsorbing
  rw [if_neg (by omega), if_neg (by omega), if_neg (by omega), if_neg (by omega),
    if_neg (by omega)]

theorem reflTop_interior (wr : ℚ) (nx : Grid) (x y : ℤ) (hy1 : 0 < y) :
    WaveSimulation.reflTop wr nx x y = nx x y := by
  unfold WaveSimulation.reflTop
  rw [if_neg (by omega)]

theorem reflBottom_interior (wr : ℚ) (h : ℤ) (nx : Grid) (x y : ℤ) (hy2 : y < h - 1) :
    WaveSimulation.reflBottom wr h nx x y = nx x y := by
  unfold WaveSimulation.reflBottom
  rw [if_neg (by omega)]

theorem reflLeft_interior (wr : ℚ) (nx : Grid) (x y : ℤ) (hx1 : 0 < x) :
    WaveSimulation.reflLeft wr nx x y = nx x y := by
  unfold WaveSimulation.reflLeft
  rw [if_neg (by omega)]

theorem reflRight_interior (wr : ℚ) (w : ℤ) (nx : Grid) (x y : ℤ) (hx2 : x < w - 1) :
    WaveSimulation.reflRight wr w nx x y = nx x y := by
  unfold WaveSimulation.reflRight
  rw [if_neg (by omega)]

theorem boundaryReflective_interior (wr : ℚ) (w h : ℤ) (nx : Grid) (x y : ℤ)
    (hx1 : 0 < x) (hx2 : x < w - 1) (hy1 : 0 < y) (hy2 : y < h - 1) :
    WaveSimulation.boundaryReflective wr w h nx x y = nx x y := by
  unfold WaveSimulation.boundaryReflective
  rw [reflRight_interior wr w _ x y hx2, reflLeft_interior wr _ x y hx1,
    reflBottom_interior wr h _ x y hy2, reflTop_interior wr nx x y hy1]

theorem pinned_of_fields_eq (t s : Beatfox.WaveSimulation)
    (hw : t.width = s.width) (hh : t.height = s.height)
    (hp : t.pressure = s.pressure) (hpp : t.pressurePrev = s.pressurePrev)
    (hpn : t.pressureNext = s.pressureNext) (hob : t.obstacles = s.obstacles)
    (hs : s.ObstaclesPinned) : t.ObstaclesPinned := by
  intro x y h1 h2 h3 h4 ho
  rw [hw] at h2
  rw [hh] at h4
  rw [hob] at ho
  rw [hp, hpp, hpn]
  exact hs x y h1 h2 h3 h4 ho

theorem updateStepCore_pinned (a : ℚ → ℚ) (dt : ℚ) (s : Beatfox.WaveSimulation)
    (hs : s.ObstaclesPinned) :
    (WaveSimulation.updateStepCore a dt s).ObstaclesPinned := by
  intro x y hx1 hx2 hy1 hy2 hob
  have hx2' : x < s.width - 1 := hx2
  have hy2' : y < s.height - 1 := hy2
  have hob' : s.obstacles x y = true := hob
  obtain ⟨hp0, hpp0, hpn0⟩ := hs x y hx1 hx2' hy1 hy2' hob'
  refine ⟨?_, ?_, ?_⟩
  · show WaveSimulation.stepPressure a dt s x y = 0
    unfold WaveSimulation.stepPressure
    split
    · rw [boundaryAbsorbing_interior _ _ _ _ _ x y hx1 hx2' hy1 hy2']
      unfold WaveSimulation.stepStencil
      exact stencilNext_obstacle _ _ _ _ _ _ _ _ x y hx1 hx2' hy1 hy2' hob'
    · rw [boundaryReflective_interior _ _ _ _ x y hx1 hx2' hy1 hy2']
      unfold WaveSimulation.stepStencil
      exact stencilNext_obstacle _ _ _ _ _ _ _ _ x y hx1 hx2' hy1 hy2' hob'
  · show WaveSimulation.injectedPressure a dt s x y = 0
    unfold WaveSimulation.injectedPressure
    rw [injectSources_obstacle a s.width s.height s.obstacles dt s.audioSources
      s.pressure x y hob']
    exact hp0
  · exact hpp0

theorem updateStep_pinned (a : ℚ → ℚ) (dt : ℚ) (s : Beatfox.WaveSimulation)
    (hs : s.ObstaclesPinned) :
    (WaveSimulation.updateStep a dt s).ObstaclesPinned :=
  pinned_of_fields_eq _ _
    (by unfold WaveSimulation.updateStep; split <;> rfl)
    (by unfold WaveSimulation.updateStep; split <;> rfl)
    (by unfold WaveSimulation.updateStep; split <;> rfl)
    (by unfold WaveSimulation.updateStep; split <;> rfl)
    (by unfold WaveSimulation.updateStep; split <;> rfl)
    (by unfold WaveSimulation.updateStep; split <;> rfl)
    (updateStepCore_pinned a dt s hs)

theorem update_pinned (s : Beatfox.WaveSimulation) (a : ℚ → ℚ) (f : ℚ)
    (hs : s.ObstaclesPinned) : (s.update a f).ObstaclesPinned := by
  have hiter : ∀ (k : ℕ) (t : Beatfox.WaveSimulation), t.ObstaclesPinned →
      ((WaveSimulation.updateStep a (s.subStepDt f))^[k] t).ObstaclesPinned := by
    intro k
    induction k with
    | zero => intro t ht; exact ht
    | succ n ih =>
        intro t ht
        rw [Function.iterate_succ_apply]
        exact ih _ (updateStep_pinned _ _ _ ht)
  have hpre : (s.updatePre f).ObstaclesPinned :=
    pinned_of_fields_eq _ _ (by simp [WaveSimulation.updatePre])
      (by simp [WaveSimulation.updatePre]) (by simp [WaveSimulation.updatePre])
      (by simp [WaveSimulation.updatePre]) (by simp [WaveSimulation.updatePre])
      (by simp [WaveSimulation.updatePre]) hs
  exact hiter _ _ hpre

theorem addPressureSource_pinned (s : Beatfox.WaveSimulation) (expQ : ℚ → ℚ)
    (x y : ℤ) (amp : ℚ) (radius : ℤ) (hs : s.ObstaclesPinned) :
    (s.addPressureSource expQ x y amp radius).ObstaclesPinned := by
  unfold WaveSimulation.addPressureSource
  split
  · exact hs
  · split
    · exact pinned_of_fields_eq _ _ (by simp) (by simp) (by simp) (by simp)
        (by simp) (by simp) hs
    · split
      · exact pinned_of_fields_eq _ _ (by simp) (by simp) (by simp) (by simp)
          (by simp) (by simp) hs
      · intro px py h1 h2 h3 h4 hob
        have h2' : px < s.width - 1 := by simpa using h2
        have h4' : py < s.height - 1 := by simpa using h4
        have hob' : s.obstacles px py = true := by simpa using hob
        obtain ⟨hp0, hpp0, hpn0⟩ := hs px py h1 h2' h3 h4' hob'
        have hC : ¬ (-radius ≤ px - x ∧ px - x ≤ radius ∧ -radius ≤ py - y ∧
            py - y ≤ radius ∧ 0 < px ∧ px < s.width - 1 ∧ 0 < py ∧
            py < s.height - 1 ∧ s.obstacles px py = false) := by
          rintro ⟨-, -, -, -, -, -, -, -, hcf⟩
          rw [hob'] at hcf
          exact Bool.noConfusion hcf
        refine ⟨?_, ?_, ?_⟩
        · show (if -radius ≤ px - x ∧ px - x ≤ radius ∧ -radius ≤ py - y ∧
              py - y ≤ radius ∧ 0 < px ∧ px < s.width - 1 ∧ 0 < py ∧
              py < s.height - 1 ∧ s.obstacles px py = false then
                (s.expandActiveRegion x y (radius * 2)).pressure px py +
                  amp * expQ (-((((px - x) * (px - x) + (py - y) * (py - y) : ℤ)) : ℚ) /
                    (2 * ((radius : ℚ) * (5/4)) * ((radius : ℚ) * (5/4))))
              else (s.expandActiveRegion x y (radius * 2)).pressure px py) = 0
          rw [if_neg hC, expand_pressure]
          exact hp0
        · show (s.expandActiveRegion x y (radius * 2)).pressurePrev px py = 0
          rw [expand_pressurePrev]
          exact hpp0
        · show (s.expandActiveRegion x y (radius * 2)).pressureNext px py = 0
          rw [expand_pressureNext]
          exact hpn0

theorem clear_pinned (s : Beatfox.WaveSimulation) : s.clear.ObstaclesPinned := by
  intro x y _ _ _ _ _
  exact ⟨rfl, rfl, rfl⟩

theorem addObstacle_pinned (s : Beatfox.WaveSimulation) (x y radius : ℤ)
    (hs : s.ObstaclesPinned) : (s.addObstacle x y radius).ObstaclesPinned := by
  intro px py h1 h2 h3 h4 hob
  by_cases hd : s.diskHit x y radius px py
  · refine ⟨?_, ?_, ?_⟩ <;>
      · show (if s.diskHit x y radius px py then (0:ℚ) else _) = 0
        rw [if_pos hd]
  · have hob' : s.obstacles px py = true := by
      have hob2 : (if s.diskHit x y radius px py then true else s.obstacles px py) =
          true := hob
      rwa [if_neg hd] at hob2
    obtain ⟨hp0, hpp0, hpn0⟩ := hs px py h1 h2 h3 h4 hob'
    refine ⟨?_, ?_, ?_⟩
    · show (if s.diskHit x y radius px py then (0:ℚ) else s.pressure px py) = 0
      rw [if_neg hd]
      exact hp0
    · show (if s.diskHit x y radius px py then (0:ℚ) else s.pressurePrev px py) = 0
      rw [if_neg hd]
      exact hpp0
    · show (if s.diskHit x y radius px py then (0:ℚ) else s.pressureNext px py) = 0
      rw [if_neg hd]
      exact hpn0

theorem removeObstacle_pinned (s : Beatfox.WaveSimulation) (x y radius : ℤ)
    (hs : s.ObstaclesPinned) : (s.removeObstacle x y radius).ObstaclesPinned := by
  intro px py h1 h2 h3 h4 hob
  by_cases hd : s.diskHit x y radius px py
  · exfalso
    have hob2 : (if s.diskHit x y radius px py then false else s.obstacles px py) =
        true := hob
    rw [if_pos hd] at hob2
    exact Bool.noConfusion hob2
  · have hob' : s.obstacles px py = true := by
      have hob2 : (if s.diskHit x y radius px py then false else s.obstacles px py) =
          true := hob
      rwa [if_neg hd] at hob2
    exact hs px py h1 h2 h3 h4 hob'

theorem clearObstacles_pinned (s : Beatfox.WaveSimulation) :
    s.clearObstacles.ObstaclesPinned := by
  intro px py _ _ _ _ hob
  exact absurd hob (by simp [WaveSimulation.clearObstacles])

theorem loadObstacles_pinned (s : Beatfox.WaveSimulation) (ok : Bool) (bytes : List Bool) :
    (s.loadObstaclesFromSVG ok bytes).2.ObstaclesPinned := by
  unfold WaveSimulation.loadObstaclesFromSVG
  split
  · exact clear_pinned _
  · split
    · exact clear_pinned _
    · intro px py _ _ _ _ _
      refine ⟨?_, ?_, ?_⟩
      · show (if inGrid s.width s.height px py ∧
            WaveSimulation.maskOfBytes s.width bytes px py = true then (0:ℚ)
          else (WaveSimulation.clear (WaveSimulation.clearObstacles s)).pressure px py) = 0
        split <;> rfl
      · show (if inGrid s.width s.height px py ∧
            WaveSimulation.maskOfBytes s.width bytes px py = true then (0:ℚ)
          else (WaveSimulation.clear
            (WaveSimulation.clearObstacles s)).pressurePrev px py) = 0
        split <;> rfl
      · show (if inGrid s.width s.height px py ∧
            WaveSimulation.maskOfBytes s.width bytes px py = true then (0:ℚ)
          else (WaveSimulation.clear
            (WaveSimulation.clearObstacles s)).pressureNext px py) = 0
        split <;> rfl

theorem reachable_pinned (s : Beatfox.WaveSimulation) (h : WaveSimulation.Reachable s) :
    s.ObstaclesPinned := by
  induction h with
  | init w h =>
      intro x y _ _ _ _ hob
      exact absurd hob (by simp [WaveSimulation.init])
  | update s a f _ ih => exact update_pinned s a f ih
  | addPressureSource s expQ x y amp radius _ ih =>
      exact addPressureSource_pinned s expQ x y amp radius ih
  | clear s _ _ => exact clear_pinned s
  | addObstacle s x y radius _ ih => exact addObstacle_pinned s x y radius ih
  | removeObstacle s x y radius _ ih => exact removeObstacle_pinned s x y radius ih
  | clearObstacles s _ _ => exact clearObstacles_pinned s
  | loadObstaclesFromSVG s ok bytes _ _ => exact loadObstacles_pinned s ok bytes
  | setListenerPosition s x y _ ih =>
      exact pinned_of_fields_eq _ _ rfl rfl rfl rfl rfl rfl ih
  | setListenerEnabled s b _ ih =>
      exact pinned_of_fields_eq _ _ rfl rfl rfl rfl rfl rfl ih
  | applyDampingPreset s p _ ih =>
      exact pinned_of_fields_eq _ _ rfl rfl rfl rfl rfl rfl ih
  | addAudioSource s src _ ih =>
      exact pinned_of_fields_eq _ _ (by simp [WaveSimulation.addAudioSource])
        (by simp [WaveSimulation.addAudioSource])
        (by simp [WaveSimulation.addAudioSource])
        (by simp [WaveSimulation.addAudioSource])
        (by simp [WaveSimulation.addAudioSource])
        (by simp [WaveSimulation.addAudioSource]) ih
  | removeAudioSource s id _ ih =>
      exact pinned_of_fields_eq _ _
        (by unfold WaveSimulation.removeAudioSource; split <;> rfl)
        (by unfold WaveSimulation.removeAudioSource; split <;> rfl)
        (by unfold WaveSimulation.removeAudioSource; split <;> rfl)
        (by unfold WaveSimulation.removeAudioSource; split <;> rfl)
        (by unfold WaveSimulation.removeAudioSource; split <;> rfl)
        (by unfold WaveSimulation.removeAudioSource; split <;> rfl) ih
  | clearAudioSources s _ ih =>
      exact pinned_of_fields_eq _ _ rfl rfl rfl rfl rfl rfl ih
  | modifyAudioSource s id f _ ih =>
      exact pinned_of_fields_eq _ _ rfl rfl rfl rfl rfl rfl ih
  | setWaveSpeed s v _ ih => exact pinned_of_fields_eq _ _ rfl rfl rfl rfl rfl rfl ih
  | setDamping s v _ ih => exact pinned_of_fields_eq _ _ rfl rfl rfl rfl rfl rfl ih
  | setWallReflection s v _ ih =>
      exact pinned_of_fields_eq _ _ rfl rfl rfl rfl rfl rfl ih

/-- Claim C1 amended (proved): for every reachable simulation state, every
obstacle cell strictly inside the grid (`0 < x < W-1`, `0 < y < H-1`) has
zero pressure in all three fields.  The restriction to interior cells is
forced by `c1_counterexample`: the boundary-condition pass writes edge cells
without checking the mask, so an obstacle on the boundary ring (reachable
through bulk mask loading) can hold nonzero pressure. -/
theorem c1_obstacle_pressure_interior (s : Beatfox.WaveSimulation)
    (hs : WaveSimulation.Reachable s) (x y : ℤ)
    (hx1 : 0 < x) (hx2 : x < s.width - 1) (hy1 : 0 < y) (hy2 : y < s.height - 1)
    (hob : s.obstacles x y = true) :
    s.pressure x y = 0 ∧ s.pressurePrev x y = 0 ∧ s.pressureNext x y = 0 :=
  reachable_pinned s hs x y hx1 hx2 hy1 hy2 hob

/-- Witness for the amended C1 at a concrete input: after
`addObstacle(1, 1, 0)` on a fresh 4x4 grid, the interior obstacle cell
`(1, 1)` is zero in all three fields. -/
theorem c1_obstacle_pressure_interior_witness :
    ((Beatfox.WaveSimulation.init 4 4).addObstacle 1 1 0).pressure 1 1 = 0 ∧
    ((Beatfox.WaveSimulation.init 4 4).addObstacle 1 1 0).pressurePrev 1 1 = 0 ∧
    ((Beatfox.WaveSimulation.init 4 4).addObstacle 1 1 0).pressureNext 1 1 = 0 :=
  c1_obstacle_pressure_interior _
    (WaveSimulation.Reachable.addObstacle _ 1 1 0 (WaveSimulation.Reachable.init 4 4))
    1 1 (by decide) (by decide) (by decide) (by decide) (by decide)

/-- The read loop and gain of `getCurrentSample` evaluated on the playing
source of the C1 trace: one PCM sample (value 1) is read and wraps, giving an
injection value of 20 Pa and leaving the source unchanged. -/
theorem c1_sample :
    (AudioSource.play c1Source).getCurrentSample (fun _ => 1) (129/8575000) =
      (20, AudioSource.play c1Source) := by
  unfold AudioSource.getCurrentSample
  norm_num [cppRound, c1Source, c1Sample, AudioSource.play, AudioSource.make, srcRead,
    AudioSample.getLength, AudioSample.getSample]

/-- The injected pressure field of the C1 trace: 20 Pa at the source cell
`(1, 1)`, the zero base field elsewhere. -/
theorem c1_injected (a b : ℤ) :
    WaveSimulation.injectedPressure (fun _ => 1) (129/8575000) c1Pre a b =
      (if a = 1 ∧ b = 1 then (20:ℚ) else 0) := by
  have hp : (AudioSource.play c1Source).playing = true := rfl
  have hx : (AudioSource.play c1Source).x = 1 := rfl
  have hy : (AudioSource.play c1Source).y = 1 := rfl
  have hw : c1Pre.width = 4 := rfl
  have hh : c1Pre.height = 4 := rfl
  have hob : c1Pre.obstacles 1 1 = false := rfl
  have hsrcs : c1Pre.audioSources = [AudioSource.play c1Source] := rfl
  have hbase : ∀ x' y' : ℤ, c1Pre.pressure x' y' = 0 := by
    intro x' y'
    show (if inGrid 4 4 x' y' ∧ WaveSimulation.maskOfBytes 4 c1Bytes x' y' = true
        then (0:ℚ) else 0) = 0
    exact ite_self 0
  unfold WaveSimulation.injectedPressure
  rw [hsrcs]
  norm_num [WaveSimulation.injectSources, hp, hx, hy, hw, hh, hob, c1_sample, hbase]

/-- The stencil output of the C1 trace at the interior cell `(1, 1)`:
`2*0.997*20 + 0.997*(0.6^2)*(-80) = 6979/625`. -/
theorem c1_stencil :
    WaveSimulation.stepStencil (fun _ => 1) (129/8575000) c1Pre 1 1 = 6979/625 := by
  have hd : c1Pre.damping = 997/1000 := rfl
  have hc : c1Pre.soundSpeed = 343 := rfl
  have hdx : c1Pre.dx = 86/10000 := rfl
  have hw : c1Pre.width = 4 := rfl
  have hh : c1Pre.height = 4 := rfl
  have hob : c1Pre.obstacles 1 1 = false := rfl
  have hprev : c1Pre.pressurePrev 1 1 = 0 := rfl
  unfold WaveSimulation.stepStencil WaveSimulation.stencilNext
  rw [hw, hh, hd, hc, hdx]
  norm_num [c1_injected, hob, hprev]

/-- `updateStep` is `updateStepCore` when the listener is disabled. -/
theorem updateStep_not_enabled (a : ℚ → ℚ) (dt : ℚ) (s : Beatfox.WaveSimulation)
    (h : s.listenerEnabled = false) :
    WaveSimulation.updateStep a dt s = WaveSimulation.updateStepCore a dt s := by
  unfold WaveSimulation.updateStep
  rw [h]
  simp

/-- `updateStep` never changes the obstacle mask. -/
theorem updateStep_obstacles (a : ℚ → ℚ) (dt : ℚ) (s : Beatfox.WaveSimulation) :
    (WaveSimulation.updateStep a dt s).obstacles = s.obstacles := by
  unfold WaveSimulation.updateStep
  split <;> rfl

/-- `update` on the C1 trace runs exactly one sub-step of duration
`dt = dt_frame = 129/8575000`. -/
theorem c1_numSteps : c1Playing.numSubSteps c1DtFrame = 1 := by
  show ⌈(129/8575000 : ℚ) / (6/10 * (86/10000) / 343)⌉ = 1
  norm_num

theorem c1_dt : c1Playing.subStepDt c1DtFrame = 129/8575000 := by
  unfold WaveSimulation.subStepDt
  rw [c1_numSteps]
  show (129/8575000 : ℚ) / ((1 : ℤ) : ℚ) = 129/8575000
  norm_num

theorem c1State_eq :
    c1State = WaveSimulation.updateStep (fun _ => 1) (129/8575000) c1Pre := by
  unfold c1State WaveSimulation.update
  rw [c1_numSteps, c1_dt]
  rfl

theorem c1_obstacle_value : c1State.obstacles 1 0 = true := by
  rw [c1State_eq, updateStep_obstacles]
  rfl

/-- The final pressure of the C1 trace at the boundary obstacle cell
`(1, 0)`: the reflective top-row pass copies `stencil(1,1) * 0.85` there. -/
theorem c1_pressure_value : c1State.pressure 1 0 = 118643/12500 := by
  rw [c1State_eq,
    updateStep_not_enabled _ _ _ (show c1Pre.listenerEnabled = false from rfl)]
  show WaveSimulation.stepPressure (fun _ => 1) (129/8575000) c1Pre 1 0 = _
  unfold WaveSimulation.stepPressure
  rw [if_neg (show ¬ (c1Pre.wallReflection < 1/10) from by
    rw [show c1Pre.wallReflection = 85/100 from rfl]; norm_num)]
  unfold WaveSimulation.boundaryReflective WaveSimulation.reflRight
    WaveSimulation.reflLeft WaveSimulation.reflBottom WaveSimulation.reflTop
  rw [show c1Pre.width = 4 from rfl, show c1Pre.height = 4 from rfl,
    show c1Pre.wallReflection = 85/100 from rfl]
  norm_num [c1_stencil]

/-- Counterexample to claim C1 as stated: `c1State` is reachable (mask load
placing an obstacle at the boundary cell `(1, 0)`, a playing source at
`(1, 1)`, one frame of one sub-step), the cell `(1, 0)` is an obstacle, yet
its current pressure is `0.997 * 11.2 * 0.85 = 118643/12500 ≠ 0`: the
reflective boundary pass copied the attenuated interior value over the
obstacle cell. -/
theorem c1_counterexample :
    WaveSimulation.Reachable c1State ∧ c1State.obstacles 1 0 = true ∧
    c1State.pressure 1 0 ≠ 0 := by
  refine ⟨?_, c1_obstacle_value, ?_⟩
  · unfold c1State c1Playing c1Loaded
    exact WaveSimulation.Reachable.update _ _ _
      (WaveSimulation.Reachable.modifyAudioSource _ 0 AudioSource.play
        (WaveSimulation.Reachable.addAudioSource _ c1Source
          (WaveSimulation.Reachable.loadObstaclesFromSVG _ true c1Bytes
            (WaveSimulation.Reachable.init 4 4))))
  · rw [c1_pressure_value]
    norm_num

end Beatfox
